import Mathlib

/-!
# TORQ Tech News — verification of the subscription, aggregation and analytics layers

Shallow embedding of the Python modules `subscribers_storage.py`,
`multi_source_aggregator.py`, `analyze_data.py` and the tracking endpoints of
`app.py`.  Strings that the code computes on are modelled as `List Char`
(Python `str` of the relevant ASCII fragment); machine-external effects
(HTTP fetches, the Azure table client, random number draws, wall-clock
timestamps) are oracle parameters, and fallible Python code returns
`Except`.
-/

namespace TORQ

/-! ## Character classes of `SubscribersStorage.EMAIL_REGEX`

The Python regex (subscribers_storage.py lines 158-161) is

  `^[a-zA-Z0-9.!#$%&'*+/=?^_\x60\x7b|\x7d~-]+@[a-zA-Z0-9](?:[a-zA-Z0-9-]{0,61}`
  `[a-zA-Z0-9])?(?:\.[a-zA-Z0-9](?:[a-zA-Z0-9-]{0,61}[a-zA-Z0-9])?)*$`

All classes are plain ASCII ranges/sets, embedded below by explicit
character-code tests.
-/

/-- ASCII letter, the `a-zA-Z` ranges of the regex. -/
def isAlphaChar (c : Char) : Bool :=
  ('a' ≤ c && c ≤ 'z') || ('A' ≤ c && c ≤ 'Z')

/-- ASCII digit, the `0-9` range of the regex. -/
def isDigitChar (c : Char) : Bool :=
  '0' ≤ c && c ≤ '9'

/-- `a-zA-Z0-9`. -/
def isAlnumChar (c : Char) : Bool :=
  isAlphaChar c || isDigitChar c

/-- Character codes of the specials admitted in the local part of the regex:
`. ! # $ % & ' * + / = ? ^ _` together with codes 96, 123, 124, 125
(backquote, left brace, pipe, right brace), `~` and `-`. -/
def localSpecialCodes : List Nat :=
  [46, 33, 35, 36, 37, 38, 39, 42, 43, 47, 61, 63, 94, 95, 96, 123, 124, 125, 126, 45]

/-- Membership in the local-part class of the regex. -/
def isLocalChar (c : Char) : Bool :=
  isAlnumChar c || localSpecialCodes.contains c.toNat

/-- Membership in the interior class `[a-zA-Z0-9-]` of a domain label. -/
def isLabelChar (c : Char) : Bool :=
  isAlnumChar c || c = '-'

/-! ## Splitting on a separator character

Executable model of Python `str.split(sep)` for a one-character separator
(used by the regex embedding and by `extract_domain`).  On the empty string
Python returns `[""]`, matching the `[[]]` base case. -/

/-- Python `s.split(sep)` on a `List Char`. -/
def splitOnChar (sep : Char) : List Char → List (List Char)
  | [] => [[]]
  | c :: rest =>
    if c = sep then
      [] :: splitOnChar sep rest
    else
      match splitOnChar sep rest with
      | [] => [[c]]
      | h :: t => (c :: h) :: t

/-- A domain label `[a-zA-Z0-9](?:[a-zA-Z0-9-]{0,61}[a-zA-Z0-9])?`:
nonempty, at most 63 characters, interior characters in `[a-zA-Z0-9-]`,
first and last character alphanumeric. -/
def labelOk (l : List Char) : Bool :=
  decide (l ≠ []) && decide (l.length ≤ 63) && l.all isLabelChar
    && isAlnumChar (l.headD 'x') && isAlnumChar (l.getLastD 'x')

/-- The domain part of the regex: one or more dot-separated labels.  Labels
contain no dots, so matching is equivalent to every dot-separated chunk
being a valid label. -/
def domainOk (l : List Char) : Bool :=
  (splitOnChar '.' l).all labelOk

/-- Whole-string match of `EMAIL_REGEX`.  The pattern is
`local+ '@' domain` where neither character class contains `'@'`, so a
match exists exactly when the string splits at a unique `'@'` into a
nonempty all-local-characters part and a valid domain. -/
def emailRegexMatches (l : List Char) : Bool :=
  match splitOnChar '@' l with
  | [lp, dom] => decide (lp ≠ []) && lp.all isLocalChar && domainOk dom
  | _ => false

/-! ## Normalization (`email.strip().lower()`) -/

/-- ASCII whitespace stripped by Python `str.strip()` (the model covers the
ASCII fragment: space, tab, newline, carriage return, vertical tab, form
feed). -/
def isSpaceChar (c : Char) : Bool :=
  c = ' ' || c = '\t' || c = '\n' || c = '\r' || c.toNat = 11 || c.toNat = 12

/-- Python `str.lower()` on the ASCII fragment: map `A-Z` to `a-z`, leave
everything else unchanged. -/
def pyLower (c : Char) : Char :=
  if 'A' ≤ c && c ≤ 'Z' then Char.ofNat (c.toNat + 32) else c

/-- `str.strip()`: drop leading and trailing whitespace. -/
def pyStrip (l : List Char) : List Char :=
  ((l.dropWhile isSpaceChar).reverse.dropWhile isSpaceChar).reverse

/-- `email.strip().lower()` as performed by `validate_email`. -/
def normalizeEmail (l : List Char) : List Char :=
  (pyStrip l).map pyLower

/-! ## Error model of `subscribers_storage.py` -/

/-- The `SubscriptionError` hierarchy: `ValidationError(message, field,
value)` (code VALIDATION_ERROR, HTTP 400), `DuplicateSubscriptionError(email)`
(message "Email already subscribed", code DUPLICATE_EMAIL, HTTP 409) and the
generic `SubscriptionError(message, code, status_code)`. -/
inductive SubError where
  | validationError (message : String) (field : String) (value : List Char)
  | duplicateSubscription (email : List Char)
  | subscriptionError (message : String) (code : String) (statusCodeArg : Nat)
  deriving DecidableEq, Repr

/-- `status_code` attribute of a `SubscriptionError`. -/
def SubError.statusCode : SubError → Nat
  | .validationError _ _ _ => 400
  | .duplicateSubscription _ => 409
  | .subscriptionError _ _ s => s

/-- `message` attribute of a `SubscriptionError`. -/
def SubError.message : SubError → String
  | .validationError m _ _ => m
  | .duplicateSubscription _ => "Email already subscribed"
  | .subscriptionError m _ _ => m

/-- Exceptions that can cross the boundaries of the subscription functions:
the `SubscriptionError` hierarchy, plus the raw `IndexError` that
`email.split('@')[1]` in `extract_domain` would raise on a string with no
`'@'` (it is not caught by any `except` clause in the module). -/
inductive PyExc where
  | subErr (e : SubError)
  | indexError
  deriving DecidableEq, Repr

/-! ## `validate_email` and `extract_domain` -/

/-- `SubscribersStorage.validate_email` (lines 306-350): reject falsy
(empty) input, normalize by strip+lower, reject on regex mismatch, reject
when longer than 254 characters, otherwise return the normalized email. -/
def validate_email (email : List Char) : Except SubError (List Char) :=
  if email = [] then
    .error (.validationError "Email address is required" "email" email)
  else
    let email_normalized := normalizeEmail email
    if ¬ (emailRegexMatches email_normalized = true) then
      .error (.validationError "Invalid email format" "email" email)
    else if 254 < email_normalized.length then
      .error (.validationError "Email address too long (max 254 characters)" "email" email)
    else
      .ok email_normalized

/-- `SubscribersStorage.extract_domain` (line 390): `email.split('@')[1]`.
`none` models the `IndexError` raised when the split has fewer than two
parts. -/
def extract_domain (email : List Char) : Option (List Char) :=
  (splitOnChar '@' email).get? 1

/-! ## Subscriber storage

The SQLite `subscribers` table (schema at lines 255-267) is modelled as a
list of rows; the `UNIQUE` constraint on `email` is maintained by the
operations themselves (lookup before insert, exactly as
`_subscribe_sqlite` does). -/

/-- One row of the `subscribers` table (the columns the subscription
logic reads or writes). -/
structure SubRecord where
  email : List Char
  email_domain : List Char
  subscribed_at : String
  source : String
  status : String
  ip_hash : String
  updated_at : String
  deriving DecidableEq, Repr

/-- `SELECT status FROM subscribers WHERE email = ?` — first row with the
given email. -/
def findSub (db : List SubRecord) (email : List Char) : Option SubRecord :=
  db.find? (fun r => r.email = email)

/-- The `UPDATE subscribers SET status='active', subscribed_at=?,
ip_hash=?, updated_at=? WHERE email = ?` reactivation branch. -/
def reactivate (db : List SubRecord) (email : List Char) (ip_hash timestamp : String) :
    List SubRecord :=
  db.map (fun r =>
    if r.email = email then
      { r with status := "active", subscribed_at := timestamp,
               ip_hash := ip_hash, updated_at := timestamp }
    else r)

/-- `SubscribersStorage._subscribe_sqlite` (lines 472-552).  Computes the
domain (`extract_domain`, which would raise `IndexError` on an at-less
string), looks the email up; an existing active row raises
`DuplicateSubscriptionError`, an existing inactive row is reactivated,
otherwise a new active row is inserted.  Returns the updated table. -/
def subscribe_sqlite (db : List SubRecord) (email : List Char)
    (ip_hash timestamp : String) : Except PyExc (List SubRecord) :=
  match extract_domain email with
  | none => .error .indexError
  | some domain =>
    match findSub db email with
    | some r =>
      if r.status = "active" then
        .error (.subErr (.duplicateSubscription email))
      else
        .ok (reactivate db email ip_hash timestamp)
    | none =>
      .ok (db ++ [{ email := email, email_domain := domain,
                    subscribed_at := timestamp, source := "torqtechnews",
                    status := "active", ip_hash := ip_hash,
                    updated_at := timestamp }])

/-- The frozen dataclass `SubscriptionResult`. -/
structure SubscriptionResult where
  success : Bool
  message : String
  email : List Char
  timestamp : String
  storage_backend : String
  deriving DecidableEq, Repr

/-- The classification performed by
`except (DuplicateSubscriptionError, ValidationError): raise` in
`subscribe`. -/
def isDupOrValidation : PyExc → Bool
  | .subErr (.duplicateSubscription _) => true
  | .subErr (.validationError _ _ _) => true
  | _ => false

/-- `ip_hash = self.hash_ip(ip_address) if ip_address else "unknown"`,
with `hash_ip` abstracted as `hashFn`. -/
def ip_hash_of (hashFn : String → String) : Option String → String
  | some ip => hashFn ip
  | none => "unknown"

/-- `SubscribersStorage.subscribe` (lines 554-614).

External pieces are parameters: `useAzure` is `self.use_azure`; `azOut`
summarises the observable outcome of `_subscribe_azure` against the remote
table (success, or the exception it raises — the Azure client itself is
outside the program); `hashFn` stands for `hash_ip` (SHA-256 truncated to
16 hex characters — the digest value is irrelevant to every property here,
only the `if ip_address` control flow matters); `timestamp` is
`datetime.utcnow().isoformat()`.

The function validates, hashes the IP (or uses "unknown"), tries Azure
first when available — re-raising `DuplicateSubscriptionError` and
`ValidationError`, falling back to SQLite on any other exception — and
returns a `SubscriptionResult` whose `storage_backend` is "azure" only
when the Azure write itself succeeded.  The returned list is the SQLite
table after the call. -/
def subscribe (useAzure : Bool) (azOut : Except PyExc Unit)
    (hashFn : String → String) (db : List SubRecord) (email : List Char)
    (ip_address : Option String) (timestamp : String) :
    Except PyExc (SubscriptionResult × List SubRecord) :=
  match validate_email email with
  | .error e => .error (.subErr e)
  | .ok email_normalized =>
    let ip_hash := ip_hash_of hashFn ip_address
    let result (backend : String) (db' : List SubRecord) :
        SubscriptionResult × List SubRecord :=
      ({ success := true, message := "Successfully subscribed!",
         email := email_normalized, timestamp := timestamp,
         storage_backend := backend }, db')
    if useAzure then
      match azOut with
      | .ok _ => .ok (result "azure" db)
      | .error ex =>
        if isDupOrValidation ex then
          .error ex
        else
          match subscribe_sqlite db email_normalized ip_hash timestamp with
          | .error e2 => .error e2
          | .ok db2 => .ok (result "sqlite" db2)
    else
      match subscribe_sqlite db email_normalized ip_hash timestamp with
      | .error e2 => .error e2
      | .ok db2 => .ok (result "sqlite" db2)

/-- Return shape of `get_subscriber_count`. -/
structure CountResult where
  count : Nat
  backend : String
  success : Bool
  deriving DecidableEq, Repr

/-- `SubscribersStorage.get_subscriber_count` (lines 616-669) on the SQLite
backend: `SELECT COUNT(*) FROM subscribers WHERE status = 'active'`. -/
def get_subscriber_count (db : List SubRecord) : CountResult :=
  { count := (db.filter (fun r => r.status = "active")).length,
    backend := "sqlite", success := true }

/-- A sequence of `subscribe` calls on the SQLite backend, threading the
table; stops at the first exception.  Each call is (email, ip, timestamp). -/
def subscribeAll (hashFn : String → String) (db : List SubRecord) :
    List (List Char × Option String × String) → Except PyExc (List SubRecord)
  | [] => .ok db
  | (e, ip, ts) :: rest =>
    match subscribe false (.ok ()) hashFn db e ip ts with
    | .error ex => .error ex
    | .ok (_, db') => subscribeAll hashFn db' rest

/-! ## Multi-source aggregator (`multi_source_aggregator.py`)

Article dictionaries become a record of the fields the aggregator writes.
The HTTP request plus BeautifulSoup parsing of each source is an oracle:
`Except Unit (List Article)` is `.ok parsed` when the request and parse
succeed (yielding the per-element article dicts the loop builds, already
capped by `find_all(..., limit=...)`), and `.error ()` when any exception
is raised (connection error, timeout, non-2xx `raise_for_status`, JSON
decode failure).  `random.randint` reading times and fallback image draws
are oracle functions indexed by position; `datetime.now()` is an oracle
string. -/

/-- An article dictionary, restricted to the keys the aggregator itself
assigns.  `author_title` is only set on the featured article. -/
structure Article where
  title : String
  excerpt : String
  image : String
  category : String
  author : String
  date : String
  reading_time : Nat
  link : String
  source : String
  author_title : String := ""
  deriving DecidableEq, Repr

/-- Fixed fallback titles of `_generate_techcrunch_fallback`. -/
def techcrunchFallbackTitles : List String :=
  ["AI Startup Raises $50M to Transform Enterprise Analytics",
   "Google Announces Major AI Model Breakthrough",
   "New Study Shows AI Impact on Productivity"]

/-- Fixed fallback titles of `_generate_mit_tech_fallback`. -/
def mitTechFallbackTitles : List String :=
  ["The Future of Quantum Computing in Enterprise",
   "Breakthrough in Battery Technology Could Transform EVs"]

/-- Fixed fallback titles of `_generate_hackernews_fallback`. -/
def hackernewsFallbackTitles : List String :=
  ["Show HN: New Open Source ML Framework",
   "Ask HN: Best Practices for Scaling Startups"]

/-- `MultiSourceAggregator._generate_techcrunch_fallback(count)`
(lines 416-433): `count` articles cycling through the fixed titles, with
oracle image and reading-time draws. -/
def generate_techcrunch_fallback (img : Nat → String) (rt : Nat → Nat)
    (date : String) (count : Nat) : List Article :=
  (List.range count).map (fun i =>
    { title := techcrunchFallbackTitles.getD (i % techcrunchFallbackTitles.length) "",
      excerpt := "Latest tech news from Silicon Valley's most influential startups and companies.",
      image := img i, category := "Startups & Funding", author := "TechCrunch",
      date := date, reading_time := rt i,
      link := "https://techcrunch.com", source := "TechCrunch" })

/-- `MultiSourceAggregator._generate_mit_tech_fallback(count)`
(lines 435-451). -/
def generate_mit_tech_fallback (img : Nat → String) (rt : Nat → Nat)
    (date : String) (count : Nat) : List Article :=
  (List.range count).map (fun i =>
    { title := mitTechFallbackTitles.getD (i % mitTechFallbackTitles.length) "",
      excerpt := "Deep-dive technology analysis from MIT's leading tech publication.",
      image := img i, category := "Innovation", author := "MIT Technology Review",
      date := date, reading_time := rt i,
      link := "https://www.technologyreview.com", source := "MIT Tech Review" })

/-- `MultiSourceAggregator._generate_hackernews_fallback(count)`
(lines 453-469). -/
def generate_hackernews_fallback (img : Nat → String) (rt : Nat → Nat)
    (date : String) (count : Nat) : List Article :=
  (List.range count).map (fun i =>
    { title := hackernewsFallbackTitles.getD (i % hackernewsFallbackTitles.length) "",
      excerpt := "Trending tech discussions from the developer community.",
      image := img i, category := "Technology", author := "HN Community",
      date := date, reading_time := rt i,
      link := "https://news.ycombinator.com", source := "Hacker News" })

/-- `fetch_techcrunch_articles(limit)` (lines 57-114): on any exception the
fallback generator is substituted; either way the result is capped with
`articles[:limit]`. -/
def fetch_techcrunch_articles (fetched : Except Unit (List Article))
    (img : Nat → String) (rt : Nat → Nat) (date : String) (limit : Nat) :
    List Article :=
  (match fetched with
   | .ok parsed => parsed
   | .error _ => generate_techcrunch_fallback img rt date limit).take limit

/-- `fetch_mit_tech_review_articles(limit)` (lines 116-171). -/
def fetch_mit_tech_review_articles (fetched : Except Unit (List Article))
    (img : Nat → String) (rt : Nat → Nat) (date : String) (limit : Nat) :
    List Article :=
  (match fetched with
   | .ok parsed => parsed
   | .error _ => generate_mit_tech_fallback img rt date limit).take limit

/-- `fetch_hackernews_articles(limit)` (lines 173-221). -/
def fetch_hackernews_articles (fetched : Except Unit (List Article))
    (img : Nat → String) (rt : Nat → Nat) (date : String) (limit : Nat) :
    List Article :=
  (match fetched with
   | .ok parsed => parsed
   | .error _ => generate_hackernews_fallback img rt date limit).take limit

/-- `fetch_mit_sloan_articles(limit)` (lines 223-269).  Unlike the other
three sources this function has no fallback generator: on any exception
the local `articles` list is still the empty list it was initialised to,
and `articles[:limit] = []` is returned. -/
def fetch_mit_sloan_articles (fetched : Except Unit (List Article))
    (limit : Nat) : List Article :=
  (match fetched with
   | .ok parsed => parsed
   | .error _ => []).take limit

/-- Substring test, Python `needle in haystack` on strings. -/
def listContains (needle hay : List Char) : Bool :=
  (List.range (hay.length + 1)).any (fun i => needle.isPrefixOf (hay.drop i))

/-- The `data_cache.json` payload assembled by `fetch_all_articles`. -/
structure CacheData where
  timestamp : String
  featured : Article
  articles : List Article
  ai_ml_articles : List Article
  sources_used : List String
  deriving DecidableEq, Repr

/-- `_get_default_featured` (lines 569-581), used when no article at all
was collected. -/
def get_default_featured (img : Nat → String) (date : String) : Article :=
  { title := "The Future of AI in Enterprise Technology",
    excerpt := "How artificial intelligence is transforming business operations and strategy across industries.",
    image := img 0, category := "AI & Machine Learning",
    author := "TORQ Tech News", author_title := "Editorial Team",
    date := date, reading_time := 10, link := "#", source := "" }

/-- Oracle environment of one aggregation run: per-source fetch outcomes,
random draws, clock readings, the newspaper3k content-extraction step
(`enrich`, which rewrites fields of each article dict in place and never
adds or removes list elements — the theorems below hold for every such
rewriting), and the `random.shuffle` permutation. -/
structure AggEnv where
  tcFetch : Except Unit (List Article)
  mtFetch : Except Unit (List Article)
  hnFetch : Except Unit (List Article)
  msFetch : Except Unit (List Article)
  img : Nat → String
  rt : Nat → Nat
  nowDate : String
  nowIso : String
  enrich : Article → Article
  shuffle : List Article → List Article

/-- `MultiSourceAggregator.fetch_all_articles` (lines 471-567).

Fetches TechCrunch (3), MIT Tech Review (2), Hacker News (2), MIT Sloan
(6); optionally enriches every collected dict in place with extracted
content; shuffles; takes the first 6 as `articles`; promotes the head of
the shuffled list (or the default) to `featured`, setting its
`author_title` (an in-place dict mutation, hence visible through the
`articles` alias as well, which the model applies before slicing);
collects up to 3 AI/ML articles, topping up from the TechCrunch list; and
assembles the cache payload.  The `sources_used` Python `set` is modelled
by order-preserving deduplication. -/
def fetch_all_articles (env : AggEnv) (extract_content : Bool) : CacheData :=
  let techcrunch := fetch_techcrunch_articles env.tcFetch env.img env.rt env.nowDate 3
  let mit_tech := fetch_mit_tech_review_articles env.mtFetch env.img env.rt env.nowDate 2
  let hackernews := fetch_hackernews_articles env.hnFetch env.img env.rt env.nowDate 2
  let mit_sloan := fetch_mit_sloan_articles env.msFetch 6
  let all_articles := techcrunch ++ mit_tech ++ hackernews ++ mit_sloan
  let all_articles := if extract_content then all_articles.map env.enrich else all_articles
  let techcrunch := if extract_content then techcrunch.map env.enrich else techcrunch
  let shuffled := env.shuffle all_articles
  let shuffled := match shuffled with
    | [] => []
    | a :: rest => { a with author_title := "Tech Analyst" } :: rest
  let articles := shuffled.take 6
  let featured := shuffled.headD
    { get_default_featured env.img env.nowDate with author_title := "Tech Analyst" }
  let ai0 : List Article := (shuffled.filter (fun a =>
    listContains "AI".toList a.category.toList
      || listContains "Machine".toList a.title.toList)).take 3
  let ai_ml_articles : List Article :=
    if ai0.length < 3 then ai0 ++ techcrunch.take (3 - ai0.length) else ai0
  { timestamp := env.nowIso, featured := featured, articles := articles,
    ai_ml_articles := ai_ml_articles,
    sources_used := (shuffled.map (fun a => a.source)).dedup }

/-- `MultiSourceAggregator.save_cache` (lines 583-587): `open(path, 'w')`
truncates the cache file and `json.dump` writes the serialization of
`data`; the previous file contents do not flow into the result. -/
def save_cache (_previous : Option CacheData) (data : CacheData) : Option CacheData :=
  some data

/-- One refresh cycle: `fetch_all_articles` computes the payload and calls
`save_cache` on it; the pair is (returned payload, cache file after the
cycle). -/
def run_refresh (env : AggEnv) (extract_content : Bool)
    (previous : Option CacheData) : CacheData × Option CacheData :=
  let data := fetch_all_articles env extract_content
  (data, save_cache previous data)

/-! ## Visitor analytics (`app.py` tracking, `analyze_data.py` aggregation)

The `visitors` and `user_sessions` tables are modelled as lists.  The
`user_sessions` schema (app.py lines 84-100) declares
`total_pages INTEGER DEFAULT 0` and `bounce_rate REAL DEFAULT 0`; the
session-creating `INSERT` in `track_visitor` does not set `total_pages`,
so a freshly created session carries `total_pages = 0`.  Timestamp window
filters (`start_time > datetime('now', '-N days')`) are modelled as
selecting the whole dataset, matching the claims' framing of a fixed
synthetic dataset. -/

/-- A `user_sessions` row (the columns the bounce computation touches). -/
structure Session where
  session_id : String
  total_pages : Nat
  bounce_rate : ℚ
  is_active : Bool
  duration_seconds : ℚ
  deriving DecidableEq, Repr

/-- Analytics database state: page-view rows of `visitors`
(session_id, page_url) and the `user_sessions` rows. -/
structure AnalyticsState where
  visitors : List (String × String)
  sessions : List Session
  deriving DecidableEq, Repr

/-- The empty analytics database (`init_db` creates empty tables). -/
def initAnalytics : AnalyticsState := { visitors := [], sessions := [] }

/-- `track_visitor(page_url)` (app.py lines 356-420) for a request
carrying `session_id`: inserts a `visitors` row, then creates the session
(with the schema-default `total_pages = 0`) if it does not exist, or
increments `total_pages` if it does. -/
def track_visitor (st : AnalyticsState) (session_id page_url : String) :
    AnalyticsState :=
  let visitors' := st.visitors ++ [(session_id, page_url)]
  if st.sessions.any (fun s => s.session_id = session_id) then
    { visitors := visitors',
      sessions := st.sessions.map (fun s =>
        if s.session_id = session_id then
          { s with total_pages := s.total_pages + 1 }
        else s) }
  else
    { visitors := visitors',
      sessions := st.sessions ++
        [{ session_id := session_id, total_pages := 0, bounce_rate := 0,
           is_active := true, duration_seconds := 0 }] }

/-- The `action == 'end'` branch of `/api/track-session` (app.py lines
514-524): reads `total_pages`, sets `bounce_rate` to 1.0 when
`total_pages <= 1` and 0.0 otherwise, records the duration and closes the
session.  A missing session row is left untouched (the `if result:`
guard). -/
def track_session_end (st : AnalyticsState) (session_id : String)
    (duration : ℚ) : AnalyticsState :=
  match st.sessions.find? (fun s => s.session_id = session_id) with
  | none => st
  | some s0 =>
    let bounce : ℚ := if s0.total_pages ≤ 1 then 1 else 0
    { st with sessions := st.sessions.map (fun s =>
        if s.session_id = session_id then
          { s with bounce_rate := bounce, duration_seconds := duration,
                   is_active := false }
        else s) }

/-- Python `round(x, 2)` on the aggregated rational (rounding to the
nearest hundredth; Python rounds ties to even on floats, a difference
visible only at exact third-decimal ties, which no property here
exercises). -/
def roundTo2 (x : ℚ) : ℚ := (round (x * 100) : ℤ) / 100

/-- The bounce-rate aggregation of `TORQAnalyzer.get_visitor_stats`
(analyze_data.py lines 79-89): `AVG(bounce_rate)` over the `user_sessions`
rows in the window (`NULL`, i.e. no rows, coalesced to 0 by `or 0`), then
`round(bounce_rate * 100, 2)`. -/
def bounce_rate_percentage (sessions : List Session) : ℚ :=
  let avg : ℚ :=
    if sessions.length = 0 then 0
    else (sessions.map (fun s => s.bounce_rate)).sum / sessions.length
  roundTo2 (avg * 100)

/-- Pages viewed within a session = number of `track_visitor` calls that
carried its id (each call inserts one `visitors` row). -/
def pagesViewed (st : AnalyticsState) (session_id : String) : Nat :=
  (st.visitors.filter (fun v => v.1 = session_id)).length

/-! ## Supporting lemmas -/

open TORQ

theorem splitOnChar_ne_nil (sep : Char) (l : List Char) : splitOnChar sep l ≠ [] := by
  induction l with
  | nil => simp [splitOnChar]
  | cons c rest ih =>
    simp only [splitOnChar]
    split
    · simp
    · split
      · simp
      · simp

theorem splitOnChar_eq_singleton {sep : Char} {l a : List Char}
    (h : splitOnChar sep l = [a]) : l = a ∧ sep ∉ a := by
  induction l generalizing a with
  | nil =>
    simp only [splitOnChar, List.cons.injEq, and_true] at h
    subst h
    simp
  | cons c rest ih =>
    simp only [splitOnChar] at h
    by_cases hc : c = sep
    · rw [if_pos hc] at h
      simp only [List.cons.injEq] at h
      exact absurd h.2 (splitOnChar_ne_nil sep rest)
    · rw [if_neg hc] at h
      cases h' : splitOnChar sep rest with
      | nil => exact absurd h' (splitOnChar_ne_nil sep rest)
      | cons hd tl =>
        rw [h'] at h
        simp only [List.cons.injEq] at h
        obtain ⟨ha, htl⟩ := h
        subst htl
        obtain ⟨hrest, hmem⟩ := ih h'
        subst hrest
        refine ⟨ha, ?_⟩
        rw [← ha]
        simp [List.mem_cons, hmem]
        exact fun he => hc he.symm

theorem splitOnChar_eq_pair {sep : Char} {l a b : List Char}
    (h : splitOnChar sep l = [a, b]) :
    l = a ++ sep :: b ∧ sep ∉ a ∧ sep ∉ b := by
  induction l generalizing a with
  | nil => simp [splitOnChar] at h
  | cons c rest ih =>
    simp only [splitOnChar] at h
    by_cases hc : c = sep
    · rw [if_pos hc] at h
      simp only [List.cons.injEq] at h
      obtain ⟨ha, hrest⟩ := h
      obtain ⟨hl, hb⟩ := splitOnChar_eq_singleton hrest
      subst hl
      exact ⟨by simp [← ha, hc], by simp [← ha], hb⟩
    · rw [if_neg hc] at h
      cases h' : splitOnChar sep rest with
      | nil => exact absurd h' (splitOnChar_ne_nil sep rest)
      | cons hd tl =>
        rw [h'] at h
        simp only [List.cons.injEq] at h
        obtain ⟨ha, htl⟩ := h
        rw [htl] at h'
        obtain ⟨hrest, hhd, hb⟩ := ih h'
        subst hrest
        refine ⟨by simp [← ha], ?_, hb⟩
        rw [← ha]
        simp [List.mem_cons, hhd]
        exact fun he => hc he.symm

theorem emailRegexMatches_structure {l : List Char}
    (h : emailRegexMatches l = true) :
    ∃ lp dom, splitOnChar '@' l = [lp, dom] ∧ l = lp ++ '@' :: dom ∧
      lp ≠ [] ∧ dom ≠ [] ∧ ('@' ∉ lp) ∧ ('@' ∉ dom) := by
  unfold emailRegexMatches at h
  rcases hs : splitOnChar '@' l with _ | ⟨lp, _ | ⟨dom, rest⟩⟩
  · rw [hs] at h; simp at h
  · rw [hs] at h; simp at h
  · cases rest with
    | cons x xs => rw [hs] at h; simp at h
    | nil =>
      rw [hs] at h
      simp only [Bool.and_eq_true, decide_eq_true_eq] at h
      obtain ⟨⟨hlp, _⟩, hdom⟩ := h
      obtain ⟨hl, hnl, hnd⟩ := splitOnChar_eq_pair hs
      refine ⟨lp, dom, rfl, hl, hlp, ?_, hnl, hnd⟩
      intro hde
      rw [hde] at hdom
      simp [domainOk, splitOnChar, labelOk] at hdom

theorem validate_email_eq_ok {email n : List Char} :
    validate_email email = .ok n ↔
      (emailRegexMatches (normalizeEmail email) = true ∧
       (normalizeEmail email).length ≤ 254 ∧ n = normalizeEmail email) := by
  unfold validate_email
  by_cases he : email = []
  · subst he
    simp only [if_pos rfl]
    constructor
    · intro h; exact absurd h (by simp)
    · intro ⟨hm, _, _⟩
      exact absurd hm (by decide)
  · rw [if_neg he]
    simp only
    by_cases hm : emailRegexMatches (normalizeEmail email) = true
    · rw [if_neg (by simp [hm])]
      by_cases hl : 254 < (normalizeEmail email).length
      · rw [if_pos hl]
        constructor
        · intro h; exact absurd h (by simp)
        · intro ⟨_, hle, _⟩; omega
      · rw [if_neg hl]
        constructor
        · intro h
          simp only [Except.ok.injEq] at h
          exact ⟨hm, by omega, h.symm⟩
        · intro ⟨_, _, hn⟩
          rw [hn]
    · rw [if_pos (by simp [hm])]
      constructor
      · intro h; exact absurd h (by simp)
      · intro ⟨hm2, _, _⟩; exact absurd hm2 hm

theorem char_le_iff {a b : Char} : a ≤ b ↔ a.toNat ≤ b.toNat := by
  rw [Char.le_def]
  exact ⟨fun h => h, fun h => h⟩

theorem char_eq_iff {a b : Char} : a = b ↔ a.toNat = b.toNat := by
  constructor
  · intro h; rw [h]
  · intro h
    rw [Char.ext_iff]
    exact UInt32.ext h

theorem char_toNat_ofNat_valid {n : Nat} (h : n.isValidChar) :
    (Char.ofNat n).toNat = n := by
  simp [Char.ofNat, Char.toNat, h, Char.ofNatAux]
  rfl

theorem pyLower_toNat (c : Char) :
    (pyLower c).toNat =
      if 65 ≤ c.toNat ∧ c.toNat ≤ 90 then c.toNat + 32 else c.toNat := by
  unfold pyLower
  by_cases h : ('A' ≤ c && c ≤ 'Z') = true
  · rw [if_pos h]
    simp only [Bool.and_eq_true, decide_eq_true_eq, char_le_iff] at h
    have h' : 65 ≤ c.toNat ∧ c.toNat ≤ 90 := by
      constructor
      · exact h.1
      · exact h.2
    rw [if_pos h']
    exact char_toNat_ofNat_valid (Or.inl (by omega))
  · rw [if_neg h]
    simp only [Bool.and_eq_true, decide_eq_true_eq, char_le_iff] at h
    rw [if_neg]
    intro hc
    exact h ⟨hc.1, hc.2⟩

theorem isSpaceChar_iff {c : Char} :
    isSpaceChar c = true ↔
      (c.toNat = 32 ∨ c.toNat = 9 ∨ c.toNat = 10 ∨ c.toNat = 13 ∨
       c.toNat = 11 ∨ c.toNat = 12) := by
  unfold isSpaceChar
  simp only [Bool.or_eq_true, decide_eq_true_eq, char_eq_iff,
    show (' ').toNat = 32 from rfl, show ('\t').toNat = 9 from rfl,
    show ('\n').toNat = 10 from rfl, show ('\r').toNat = 13 from rfl]
  tauto

theorem isSpaceChar_pyLower (c : Char) :
    isSpaceChar (pyLower c) = isSpaceChar c := by
  have hL := pyLower_toNat c
  by_cases hr : 65 ≤ c.toNat ∧ c.toNat ≤ 90
  · rw [if_pos hr] at hL
    have h1 : ¬ (isSpaceChar (pyLower c) = true) := by
      rw [isSpaceChar_iff, hL]
      omega
    have h2 : ¬ (isSpaceChar c = true) := by
      rw [isSpaceChar_iff]
      omega
    simp only [Bool.not_eq_true] at h1 h2
    rw [h1, h2]
  · rw [if_neg hr] at hL
    rw [char_eq_iff.mpr hL]

theorem dropWhile_isSpace_of_all {ws : List Char} (h : ws.all isSpaceChar = true) :
    ws.dropWhile isSpaceChar = [] :=
  List.dropWhile_eq_nil_iff.mpr (List.all_eq_true.mp h)

theorem pyStrip_append_left {ws l : List Char} (h : ws.all isSpaceChar = true) :
    pyStrip (ws ++ l) = pyStrip l := by
  unfold pyStrip
  rw [List.dropWhile_append,
      if_pos (List.isEmpty_iff.mpr (dropWhile_isSpace_of_all h))]

theorem pyStrip_append_right {l ws : List Char} (h : ws.all isSpaceChar = true) :
    pyStrip (l ++ ws) = pyStrip l := by
  unfold pyStrip
  rw [List.dropWhile_append]
  by_cases hd : (l.dropWhile isSpaceChar).isEmpty = true
  · rw [if_pos hd, dropWhile_isSpace_of_all h, List.isEmpty_iff.mp hd]
  · rw [if_neg hd, List.reverse_append, List.dropWhile_append,
        if_pos (List.isEmpty_iff.mpr (dropWhile_isSpace_of_all
          (by rw [List.all_reverse]; exact h)))]

theorem normalizeEmail_pad {ws1 ws2 email : List Char}
    (h1 : ws1.all isSpaceChar = true) (h2 : ws2.all isSpaceChar = true) :
    normalizeEmail (ws1 ++ email ++ ws2) = normalizeEmail email := by
  unfold normalizeEmail
  rw [List.append_assoc, pyStrip_append_left h1, pyStrip_append_right h2]

theorem pyStrip_map_pyLower (l : List Char) :
    pyStrip (l.map pyLower) = (pyStrip l).map pyLower := by
  unfold pyStrip
  have hcomp : (isSpaceChar ∘ pyLower) = isSpaceChar := funext isSpaceChar_pyLower
  rw [List.dropWhile_map, hcomp, ← List.map_reverse, List.dropWhile_map, hcomp,
      ← List.map_reverse]

theorem normalizeEmail_congr_lower {e1 e2 : List Char}
    (h : e1.map pyLower = e2.map pyLower) :
    normalizeEmail e1 = normalizeEmail e2 := by
  unfold normalizeEmail
  calc (pyStrip e1).map pyLower
      = pyStrip (e1.map pyLower) := (pyStrip_map_pyLower e1).symm
    _ = pyStrip (e2.map pyLower) := by rw [h]
    _ = (pyStrip e2).map pyLower := pyStrip_map_pyLower e2

theorem extract_domain_of_matches {n : List Char} (h : emailRegexMatches n = true) :
    ∃ dom, extract_domain n = some dom ∧ dom ≠ [] ∧
      ∃ lp, lp ≠ [] ∧ n = lp ++ '@' :: dom := by
  obtain ⟨lp, dom, hs, hl, hlp, hdom, _, _⟩ := emailRegexMatches_structure h
  refine ⟨dom, ?_, hdom, lp, hlp, hl⟩
  unfold extract_domain
  rw [hs]
  rfl

theorem findSub_reactivate {db : List SubRecord} {email : List Char}
    {iph ts : String} {r : SubRecord} (h : findSub db email = some r) :
    findSub (reactivate db email iph ts) email =
      some { r with status := "active", subscribed_at := ts,
                    ip_hash := iph, updated_at := ts } := by
  induction db with
  | nil => simp [findSub] at h
  | cons d rest ih =>
    by_cases hd : d.email = email
    · have hr : r = d := by
        unfold findSub at h
        simp [List.find?_cons, hd] at h
        exact h.symm
      subst hr
      unfold findSub reactivate
      simp [List.find?_cons, hd]
    · have h' : findSub rest email = some r := by
        unfold findSub at h ⊢
        simpa [List.find?_cons, hd] using h
      have := ih h'
      unfold findSub reactivate at this ⊢
      simpa [List.find?_cons, hd] using this

theorem findSub_append_single_of_none {db : List SubRecord} {email : List Char}
    {r : SubRecord} (h : findSub db email = none) (hr : r.email = email) :
    findSub (db ++ [r]) email = some r := by
  unfold findSub at *
  rw [List.find?_append, h]
  simp [hr]

theorem subscribe_sqlite_ok_cases {db : List SubRecord} {email : List Char}
    {iph ts : String} {db' : List SubRecord}
    (h : subscribe_sqlite db email iph ts = .ok db') :
    ∃ dom, extract_domain email = some dom ∧
      ((findSub db email = none ∧
        db' = db ++ [{ email := email, email_domain := dom,
                       subscribed_at := ts, source := "torqtechnews",
                       status := "active", ip_hash := iph, updated_at := ts }]) ∨
       (∃ r, findSub db email = some r ∧ r.status ≠ "active" ∧
         db' = reactivate db email iph ts)) := by
  unfold subscribe_sqlite at h
  cases hd : extract_domain email with
  | none => rw [hd] at h; exact absurd h (by simp)
  | some dom =>
    rw [hd] at h
    refine ⟨dom, rfl, ?_⟩
    cases hf : findSub db email with
    | none =>
      rw [hf] at h
      simp only [Except.ok.injEq] at h
      exact Or.inl ⟨rfl, h.symm⟩
    | some r =>
      rw [hf] at h
      by_cases hs : r.status = "active"
      · simp only [if_pos hs] at h
        exact absurd h (by simp)
      · simp only [if_neg hs] at h
        simp only [Except.ok.injEq] at h
        exact Or.inr ⟨r, rfl, hs, h.symm⟩

theorem findSub_after_sqlite_ok {db : List SubRecord} {email : List Char}
    {iph ts : String} {db' : List SubRecord}
    (h : subscribe_sqlite db email iph ts = .ok db') :
    ∃ r, findSub db' email = some r ∧ r.status = "active" := by
  obtain ⟨dom, _, hcase | hcase⟩ := subscribe_sqlite_ok_cases h
  · obtain ⟨hnone, hdb⟩ := hcase
    subst hdb
    exact ⟨_, findSub_append_single_of_none hnone rfl, rfl⟩
  · obtain ⟨r, hsome, _, hdb⟩ := hcase
    subst hdb
    exact ⟨_, findSub_reactivate hsome, rfl⟩

theorem subscribe_false_ok_elim {az : Except PyExc Unit} {hashFn : String → String}
    {db : List SubRecord} {email : List Char} {ip : Option String} {ts : String}
    {r1 : SubscriptionResult} {db1 : List SubRecord}
    (h : subscribe false az hashFn db email ip ts = .ok (r1, db1)) :
    ∃ n iph, validate_email email = .ok n ∧
      subscribe_sqlite db n iph ts = .ok db1 ∧
      r1 = { success := true, message := "Successfully subscribed!",
             email := n, timestamp := ts, storage_backend := "sqlite" } := by
  unfold subscribe at h
  cases hv : validate_email email with
  | error e => rw [hv] at h; exact absurd h (by simp)
  | ok n =>
    rw [hv] at h
    simp only [Bool.false_eq_true, if_false] at h
    generalize hiph : ip_hash_of hashFn ip = iph at h
    cases hs : subscribe_sqlite db n iph ts with
    | error e2 => rw [hs] at h; exact absurd h (by simp)
    | ok db2 =>
      rw [hs] at h
      simp only [Except.ok.injEq, Prod.mk.injEq] at h
      exact ⟨n, iph, rfl, by rw [hs, h.2], h.1.symm⟩

theorem subscribe_sqlite_dup {db : List SubRecord} {n dom : List Char}
    {iph ts : String} {r : SubRecord}
    (hd : extract_domain n = some dom)
    (hr : findSub db n = some r) (hact : r.status = "active") :
    subscribe_sqlite db n iph ts =
      .error (.subErr (.duplicateSubscription n)) := by
  unfold subscribe_sqlite
  rw [hd]
  simp only
  rw [hr]
  simp only [if_pos hact]

theorem subscribe_false_error_of_dup {az : Except PyExc Unit}
    {hashFn : String → String} {db : List SubRecord} {email n dom : List Char}
    {ip : Option String} {ts : String} {r : SubRecord}
    (hv : validate_email email = .ok n)
    (hd : extract_domain n = some dom)
    (hr : findSub db n = some r) (hact : r.status = "active") :
    subscribe false az hashFn db email ip ts =
      .error (.subErr (.duplicateSubscription n)) := by
  unfold subscribe
  rw [hv]
  simp only [Bool.false_eq_true, if_false]
  rw [subscribe_sqlite_dup hd hr hact]

/-! ## Claim theorems -/

theorem validate_email_error_shape {email : List Char} {e : SubError}
    (h : validate_email email = .error e) :
    ∃ m, e = .validationError m "email" email := by
  unfold validate_email at h
  by_cases h1 : email = []
  · rw [if_pos h1] at h
    simp only [Except.error.injEq] at h
    exact ⟨_, h.symm⟩
  · rw [if_neg h1] at h
    simp only at h
    by_cases h2 : emailRegexMatches (normalizeEmail email) = true
    · rw [if_neg (by simp [h2])] at h
      by_cases h3 : 254 < (normalizeEmail email).length
      · rw [if_pos h3] at h
        simp only [Except.error.injEq] at h
        exact ⟨_, h.symm⟩
      · rw [if_neg h3] at h
        exact absurd h (by simp)
    · rw [if_pos (by simp [h2])] at h
      simp only [Except.error.injEq] at h
      exact ⟨_, h.symm⟩

/-- C3: `validate_email` accepts an address exactly when its normalized
form (strip + lowercase) matches `EMAIL_REGEX` and is at most 254
characters long; on acceptance it returns exactly the normalized form; on
rejection the raised error is a `ValidationError` (on field "email",
carrying the original input); and acceptance factors through the
normalized form, so it is invariant under surrounding whitespace and
letter case. -/
theorem c3_validate_email_spec (email : List Char) :
    ((∃ n, validate_email email = .ok n) ↔
      (emailRegexMatches (normalizeEmail email) = true ∧
       (normalizeEmail email).length ≤ 254)) ∧
    (∀ n, validate_email email = .ok n → n = normalizeEmail email) ∧
    (∀ e, validate_email email = .error e →
      ∃ m, e = .validationError m "email" email) ∧
    (∀ ws1 ws2, ws1.all isSpaceChar = true → ws2.all isSpaceChar = true →
      normalizeEmail (ws1 ++ email ++ ws2) = normalizeEmail email) ∧
    (∀ e2, e2.map pyLower = email.map pyLower →
      normalizeEmail e2 = normalizeEmail email) := by
  refine ⟨⟨?_, ?_⟩, ?_, ?_, ?_, ?_⟩
  · intro ⟨n, hn⟩
    have h := validate_email_eq_ok.mp hn
    exact ⟨h.1, h.2.1⟩
  · intro ⟨hm, hl⟩
    exact ⟨normalizeEmail email, validate_email_eq_ok.mpr ⟨hm, hl, rfl⟩⟩
  · intro n hn
    exact (validate_email_eq_ok.mp hn).2.2
  · intro e he
    exact validate_email_error_shape he
  · intro ws1 ws2 h1 h2
    exact normalizeEmail_pad h1 h2
  · intro e2 h
    exact normalizeEmail_congr_lower h

/-- Closed instance of `c3_validate_email_spec`: the whitespace- and
case-mangled input `"  User@Example.COM  "` is accepted, and padding
`"a@b.co"` with whitespace does not change its normalized form. -/
theorem c3_validate_email_spec_witness :
    (∃ n, validate_email "  User@Example.COM  ".toList = .ok n) ∧
    normalizeEmail ("  ".toList ++ "a@b.co".toList ++ " ".toList) =
      normalizeEmail "a@b.co".toList :=
  ⟨(c3_validate_email_spec "  User@Example.COM  ".toList).1.mpr (by decide),
   (c3_validate_email_spec "a@b.co".toList).2.2.2.1 "  ".toList " ".toList
     (by decide) (by decide)⟩

/-- C9: every address accepted by `validate_email` contains exactly one
`'@'`, with non-empty local part and non-empty domain; hence
`extract_domain` (`email.split('@')[1]`) is total on validated emails and
returns precisely the substring after the `'@'`. -/
theorem c9_extract_domain_total {email n : List Char}
    (h : validate_email email = .ok n) :
    n.count '@' = 1 ∧
    ∃ lp dom, n = lp ++ '@' :: dom ∧ lp ≠ [] ∧ dom ≠ [] ∧
      extract_domain n = some dom := by
  obtain ⟨hm, _, _⟩ := validate_email_eq_ok.mp h
  obtain ⟨lp, dom, hs, hl, hlp, hdom, hnl, hnd⟩ := emailRegexMatches_structure
    (by rwa [← (validate_email_eq_ok.mp h).2.2] at hm)
  constructor
  · rw [hl, List.count_append, List.count_cons]
    simp [List.count_eq_zero.mpr hnl, List.count_eq_zero.mpr hnd]
  · refine ⟨lp, dom, hl, hlp, hdom, ?_⟩
    unfold extract_domain
    rw [hs]
    rfl

/-- Closed instance of `c9_extract_domain_total` at the accepted address
`"a@b.co"`. -/
theorem c9_extract_domain_total_witness :
    validate_email "a@b.co".toList = .ok "a@b.co".toList ∧
    "a@b.co".toList.count '@' = 1 := by
  have h9 : validate_email "a@b.co".toList = .ok "a@b.co".toList := rfl
  exact ⟨h9, (c9_extract_domain_total h9).1⟩

/-- C1: on the SQLite backend, once a `subscribe` call for an email has
succeeded, a second `subscribe` whose input normalizes (strip + lowercase)
to the same address raises `DuplicateSubscriptionError`, whose
`status_code` is 409 and whose message is "Email already subscribed"; the
first call's result was a success value.  (The record written by the first
call is 'active', and nothing changes it in between.) -/
theorem c1_subscribe_twice_duplicate
    (az1 az2 : Except PyExc Unit) (hf1 hf2 : String → String)
    (db db1 : List SubRecord) (e1 e2 : List Char) (ip1 ip2 : Option String)
    (ts1 ts2 : String) (r1 : SubscriptionResult)
    (hn : normalizeEmail e2 = normalizeEmail e1)
    (hok : subscribe false az1 hf1 db e1 ip1 ts1 = .ok (r1, db1)) :
    r1.success = true ∧
    subscribe false az2 hf2 db1 e2 ip2 ts2 =
      .error (.subErr (.duplicateSubscription (normalizeEmail e1))) ∧
    (SubError.duplicateSubscription (normalizeEmail e1)).statusCode = 409 ∧
    (SubError.duplicateSubscription (normalizeEmail e1)).message =
      "Email already subscribed" := by
  obtain ⟨n, iph, hv1, hs1, hr1⟩ := subscribe_false_ok_elim hok
  obtain ⟨hm, hlen, hn1⟩ := validate_email_eq_ok.mp hv1
  subst hn1
  have hv2 : validate_email e2 = .ok (normalizeEmail e1) :=
    validate_email_eq_ok.mpr ⟨by rw [hn]; exact hm, by rw [hn]; exact hlen, hn.symm⟩
  obtain ⟨dom, hdm, -, -⟩ := extract_domain_of_matches hm
  obtain ⟨r, hfr, hact⟩ := findSub_after_sqlite_ok hs1
  exact ⟨by rw [hr1], subscribe_false_error_of_dup hv2 hdm hfr hact, rfl, rfl⟩

/-- Closed instance of `c1_subscribe_twice_duplicate`: subscribing
`"A@b.co"` into an empty store succeeds, and a second subscription of
`" a@B.CO "` (same address up to case and whitespace) raises the
duplicate error. -/
theorem c1_subscribe_twice_duplicate_witness :
    normalizeEmail " a@B.CO ".toList = normalizeEmail "A@b.co".toList ∧
    subscribe false (.ok ()) (fun _ => "h") [] "A@b.co".toList none "t1" =
      .ok ({ success := true, message := "Successfully subscribed!",
             email := "a@b.co".toList, timestamp := "t1",
             storage_backend := "sqlite" },
           [{ email := "a@b.co".toList, email_domain := "b.co".toList,
              subscribed_at := "t1", source := "torqtechnews",
              status := "active", ip_hash := "unknown", updated_at := "t1" }]) ∧
    subscribe false (.ok ()) (fun _ => "h")
        [{ email := "a@b.co".toList, email_domain := "b.co".toList,
           subscribed_at := "t1", source := "torqtechnews",
           status := "active", ip_hash := "unknown", updated_at := "t1" }]
        " a@B.CO ".toList (some "203.0.113.5") "t2" =
      .error (.subErr (.duplicateSubscription (normalizeEmail "A@b.co".toList))) := by
  have h1 : normalizeEmail " a@B.CO ".toList = normalizeEmail "A@b.co".toList := by
    decide
  have h2 : subscribe false (.ok ()) (fun _ => "h") [] "A@b.co".toList none "t1" =
      .ok ({ success := true, message := "Successfully subscribed!",
             email := "a@b.co".toList, timestamp := "t1",
             storage_backend := "sqlite" },
           [{ email := "a@b.co".toList, email_domain := "b.co".toList,
              subscribed_at := "t1", source := "torqtechnews",
              status := "active", ip_hash := "unknown", updated_at := "t1" }]) := rfl
  exact ⟨h1, h2,
    (c1_subscribe_twice_duplicate (.ok ()) (.ok ()) (fun _ => "h") (fun _ => "h")
      [] _ "A@b.co".toList " a@B.CO ".toList none (some "203.0.113.5")
      "t1" "t2" _ h1 h2).2.1⟩

theorem subscribe_sqlite_error_subErr {db : List SubRecord} {n : List Char}
    {iph ts : String} {ex : PyExc}
    (hm : emailRegexMatches n = true)
    (h : subscribe_sqlite db n iph ts = .error ex) :
    ∃ se, ex = .subErr se := by
  obtain ⟨dom, hd, -, -⟩ := extract_domain_of_matches hm
  unfold subscribe_sqlite at h
  rw [hd] at h
  simp only at h
  cases hf : findSub db n with
  | none =>
    rw [hf] at h
    exact absurd h (by simp)
  | some r =>
    rw [hf] at h
    by_cases hs : r.status = "active"
    · simp only [if_pos hs, Except.error.injEq] at h
      exact ⟨_, h.symm⟩
    · simp only [if_neg hs] at h
      exact absurd h (by simp)

/-- C10: `subscribe` never returns a failure value: every call either
raises an exception from the `SubscriptionError` hierarchy
(`ValidationError`, `DuplicateSubscriptionError` or a generic
`SubscriptionError` — never the raw `IndexError` of `extract_domain`,
which validation makes unreachable) or returns a `SubscriptionResult`
with `success = True` and message "Successfully subscribed!". -/
theorem c10_subscribe_no_failure_result
    (useAzure : Bool) (az : Except PyExc Unit) (hashFn : String → String)
    (db : List SubRecord) (email : List Char) (ip : Option String)
    (ts : String) :
    (∀ r db', subscribe useAzure az hashFn db email ip ts = .ok (r, db') →
       r.success = true ∧ r.message = "Successfully subscribed!") ∧
    (∀ ex, subscribe useAzure az hashFn db email ip ts = .error ex →
       ∃ se, ex = .subErr se) := by
  unfold subscribe
  cases hv : validate_email email with
  | error e =>
    constructor
    · intro r db' h
      exact absurd h (by simp)
    · intro ex h
      simp only [Except.error.injEq] at h
      exact ⟨e, h.symm⟩
  | ok n =>
    have hm : emailRegexMatches n = true := by
      obtain ⟨hm0, -, hn0⟩ := validate_email_eq_ok.mp hv
      rwa [← hn0] at hm0
    simp only
    cases useAzure with
    | false =>
      simp only [Bool.false_eq_true, if_false]
      cases hs : subscribe_sqlite db n (ip_hash_of hashFn ip) ts with
      | error e2 =>
        constructor
        · intro r db' h
          exact absurd h (by simp)
        · intro ex h
          simp only [Except.error.injEq] at h
          subst h
          exact subscribe_sqlite_error_subErr hm hs
      | ok db2 =>
        constructor
        · intro r db' h
          simp only [Except.ok.injEq, Prod.mk.injEq] at h
          rw [← h.1]
          exact ⟨rfl, rfl⟩
        · intro ex h
          exact absurd h (by simp)
    | true =>
      simp only [if_true]
      cases az with
      | ok u =>
        constructor
        · intro r db' h
          simp only [Except.ok.injEq, Prod.mk.injEq] at h
          rw [← h.1]
          exact ⟨rfl, rfl⟩
        · intro ex h
          exact absurd h (by simp)
      | error ex0 =>
        by_cases hdup : isDupOrValidation ex0 = true
        · simp only [if_pos hdup]
          constructor
          · intro r db' h
            exact absurd h (by simp)
          · intro ex h
            simp only [Except.error.injEq] at h
            subst h
            cases ex0 with
            | subErr se => exact ⟨se, rfl⟩
            | indexError => exact absurd hdup (by simp [isDupOrValidation])
        · simp only [if_neg hdup]
          cases hs : subscribe_sqlite db n (ip_hash_of hashFn ip) ts with
          | error e2 =>
            constructor
            · intro r db' h
              exact absurd h (by simp)
            · intro ex h
              simp only [Except.error.injEq] at h
              subst h
              exact subscribe_sqlite_error_subErr hm hs
          | ok db2 =>
            constructor
            · intro r db' h
              simp only [Except.ok.injEq, Prod.mk.injEq] at h
              rw [← h.1]
              exact ⟨rfl, rfl⟩
            · intro ex h
              exact absurd h (by simp)

/-- Closed instance of `c10_subscribe_no_failure_result`: the rejection of
the malformed address `"bad"` is a `SubscriptionError`-hierarchy
exception, and the successful call on `"a@b.co"` returns `success = true`. -/
theorem c10_subscribe_no_failure_result_witness :
    (∃ se, PyExc.subErr (SubError.validationError "Invalid email format"
      "email" "bad".toList) = PyExc.subErr se) ∧
    ({ success := true, message := "Successfully subscribed!",
       email := "a@b.co".toList, timestamp := "t",
       storage_backend := "sqlite" } : SubscriptionResult).success = true := by
  constructor
  · exact (c10_subscribe_no_failure_result false (.ok ()) (fun _ => "h") []
      "bad".toList none "t").2 _ rfl
  · exact ((c10_subscribe_no_failure_result false (.ok ()) (fun _ => "h") []
      "a@b.co".toList none "t").1 _ _ rfl).1

/-- C4: with the Azure backend in use, a primary-write failure that is
neither `DuplicateSubscriptionError` nor `ValidationError` is retried on
SQLite, and a successful retry yields a success result whose
`storage_backend` is "sqlite"; `DuplicateSubscriptionError` and
`ValidationError` raised on the primary path propagate to the caller
unchanged. -/
theorem c4_azure_fallback
    (hashFn : String → String) (db : List SubRecord) (email n : List Char)
    (ip : Option String) (ts : String)
    (hv : validate_email email = .ok n) :
    (∀ ex db2, isDupOrValidation ex = false →
       subscribe_sqlite db n (ip_hash_of hashFn ip) ts = .ok db2 →
       subscribe true (.error ex) hashFn db email ip ts =
         .ok ({ success := true, message := "Successfully subscribed!",
                email := n, timestamp := ts, storage_backend := "sqlite" },
              db2)) ∧
    (∀ em, subscribe true (.error (.subErr (.duplicateSubscription em)))
        hashFn db email ip ts =
        .error (.subErr (.duplicateSubscription em))) ∧
    (∀ m f v, subscribe true (.error (.subErr (.validationError m f v)))
        hashFn db email ip ts =
        .error (.subErr (.validationError m f v))) := by
  refine ⟨?_, ?_, ?_⟩
  · intro ex db2 hnd hok
    unfold subscribe
    rw [hv]
    simp only [if_true, hnd, Bool.false_eq_true, if_false]
    rw [hok]
  · intro em
    unfold subscribe
    rw [hv]
    simp [isDupOrValidation]
  · intro m f v
    unfold subscribe
    rw [hv]
    simp [isDupOrValidation]

/-- Closed instance of `c4_azure_fallback`: an Azure `SubscriptionError`
(code AZURE_SAVE_ERROR) falls back to a successful SQLite write reported
with backend "sqlite", while a duplicate error from the primary path
propagates unchanged. -/
theorem c4_azure_fallback_witness :
    validate_email "a@b.co".toList = .ok "a@b.co".toList ∧
    isDupOrValidation (.subErr (.subscriptionError
      "Failed to save subscription to Azure" "AZURE_SAVE_ERROR" 500)) = false ∧
    subscribe true
        (.error (.subErr (.subscriptionError
          "Failed to save subscription to Azure" "AZURE_SAVE_ERROR" 500)))
        (fun _ => "h") [] "a@b.co".toList none "t" =
      .ok ({ success := true, message := "Successfully subscribed!",
             email := "a@b.co".toList, timestamp := "t",
             storage_backend := "sqlite" },
           [{ email := "a@b.co".toList, email_domain := "b.co".toList,
              subscribed_at := "t", source := "torqtechnews",
              status := "active", ip_hash := "unknown", updated_at := "t" }]) ∧
    subscribe true (.error (.subErr (.duplicateSubscription "x@y.eu".toList)))
        (fun _ => "h") [] "a@b.co".toList none "t" =
      .error (.subErr (.duplicateSubscription "x@y.eu".toList)) := by
  have hv : validate_email "a@b.co".toList = .ok "a@b.co".toList := rfl
  have hc := c4_azure_fallback (fun _ => "h") [] "a@b.co".toList
    "a@b.co".toList none "t" hv
  exact ⟨hv, rfl, hc.1 _ _ rfl rfl, hc.2.1 "x@y.eu".toList⟩

theorem subscribe_sqlite_ok_all_active {db : List SubRecord} {n : List Char}
    {iph ts : String} {db' : List SubRecord}
    (hact : ∀ r ∈ db, r.status = "active")
    (h : subscribe_sqlite db n iph ts = .ok db') :
    ∃ dom, db' = db ++ [{ email := n, email_domain := dom,
                          subscribed_at := ts, source := "torqtechnews",
                          status := "active", ip_hash := iph,
                          updated_at := ts }] := by
  obtain ⟨dom, -, hc | hc⟩ := subscribe_sqlite_ok_cases h
  · exact ⟨dom, hc.2⟩
  · obtain ⟨r, hsome, hstat, -⟩ := hc
    have hmem : r ∈ db := List.mem_of_find?_eq_some hsome
    exact absurd (hact r hmem) hstat

theorem subscribeAll_length {hashFn : String → String}
    {calls : List (List Char × Option String × String)}
    {db db' : List SubRecord}
    (hact : ∀ r ∈ db, r.status = "active")
    (h : subscribeAll hashFn db calls = .ok db') :
    db'.length = db.length + calls.length ∧
    ∀ r ∈ db', r.status = "active" := by
  induction calls generalizing db with
  | nil =>
    unfold subscribeAll at h
    simp only [Except.ok.injEq] at h
    subst h
    exact ⟨by simp, hact⟩
  | cons c rest ih =>
    obtain ⟨e, ip, ts⟩ := c
    unfold subscribeAll at h
    cases hsub : subscribe false (.ok ()) hashFn db e ip ts with
    | error ex => rw [hsub] at h; exact absurd h (by simp)
    | ok pr =>
      obtain ⟨r1, db1⟩ := pr
      rw [hsub] at h
      obtain ⟨n, iph, -, hs1, -⟩ := subscribe_false_ok_elim hsub
      obtain ⟨dom, hdb1⟩ := subscribe_sqlite_ok_all_active hact hs1
      have hact1 : ∀ r ∈ db1, r.status = "active" := by
        subst hdb1
        intro r hr
        rcases List.mem_append.mp hr with hr | hr
        · exact hact r hr
        · simp only [List.mem_singleton] at hr
          rw [hr]
      obtain ⟨hlen, hact'⟩ := ih hact1 h
      refine ⟨?_, hact'⟩
      rw [hlen]
      subst hdb1
      simp
      omega

/-- C5: starting from an empty subscriber store, after N successful
`subscribe` calls (SQLite backend) whose emails normalize to
pairwise-distinct addresses, `get_subscriber_count` reports
`count = N`. -/
theorem c5_count_after_unique_subscribes
    (hashFn : String → String)
    (calls : List (List Char × Option String × String))
    (db' : List SubRecord)
    (_hdist : (calls.map (fun c => normalizeEmail c.1)).Nodup)
    (h : subscribeAll hashFn [] calls = .ok db') :
    (get_subscriber_count db').count = calls.length := by
  obtain ⟨hlen, hact⟩ := subscribeAll_length (by simp) h
  unfold get_subscriber_count
  simp only
  rw [List.filter_eq_self.mpr ?hall]
  case hall =>
    intro r hr
    simpa using hact r hr
  simpa using hlen

/-- Closed instance of `c5_count_after_unique_subscribes`: two distinct
addresses subscribed from the empty store give count 2. -/
theorem c5_count_after_unique_subscribes_witness :
    ([("a@b.co".toList, (none : Option String), "t1"),
      ("c@d.eu".toList, (none : Option String), "t2")].map
        (fun c => normalizeEmail c.1)).Nodup ∧
    (get_subscriber_count
      [{ email := "a@b.co".toList, email_domain := "b.co".toList,
         subscribed_at := "t1", source := "torqtechnews",
         status := "active", ip_hash := "unknown", updated_at := "t1" },
       { email := "c@d.eu".toList, email_domain := "d.eu".toList,
         subscribed_at := "t2", source := "torqtechnews",
         status := "active", ip_hash := "unknown", updated_at := "t2" }]).count
      = 2 := by
  have hd : ([("a@b.co".toList, (none : Option String), "t1"),
      ("c@d.eu".toList, (none : Option String), "t2")].map
        (fun c => normalizeEmail c.1)).Nodup := by decide
  have hs : subscribeAll (fun _ => "h") []
      [("a@b.co".toList, (none : Option String), "t1"),
       ("c@d.eu".toList, (none : Option String), "t2")] =
      .ok [{ email := "a@b.co".toList, email_domain := "b.co".toList,
             subscribed_at := "t1", source := "torqtechnews",
             status := "active", ip_hash := "unknown", updated_at := "t1" },
           { email := "c@d.eu".toList, email_domain := "d.eu".toList,
             subscribed_at := "t2", source := "torqtechnews",
             status := "active", ip_hash := "unknown", updated_at := "t2" }] := rfl
  exact ⟨hd, c5_count_after_unique_subscribes (fun _ => "h") _ _ hd hs⟩

theorem generate_techcrunch_fallback_length (img : Nat → String)
    (rt : Nat → Nat) (date : String) (n : Nat) :
    (generate_techcrunch_fallback img rt date n).length = n := by
  simp [generate_techcrunch_fallback]

theorem generate_mit_tech_fallback_length (img : Nat → String)
    (rt : Nat → Nat) (date : String) (n : Nat) :
    (generate_mit_tech_fallback img rt date n).length = n := by
  simp [generate_mit_tech_fallback]

theorem generate_hackernews_fallback_length (img : Nat → String)
    (rt : Nat → Nat) (date : String) (n : Nat) :
    (generate_hackernews_fallback img rt date n).length = n := by
  simp [generate_hackernews_fallback]

theorem fetch_techcrunch_articles_error (img : Nat → String)
    (rt : Nat → Nat) (date : String) (n : Nat) :
    fetch_techcrunch_articles (.error ()) img rt date n =
      generate_techcrunch_fallback img rt date n := by
  unfold fetch_techcrunch_articles
  exact List.take_of_length_le (by rw [generate_techcrunch_fallback_length])

theorem fetch_mit_tech_review_articles_error (img : Nat → String)
    (rt : Nat → Nat) (date : String) (n : Nat) :
    fetch_mit_tech_review_articles (.error ()) img rt date n =
      generate_mit_tech_fallback img rt date n := by
  unfold fetch_mit_tech_review_articles
  exact List.take_of_length_le (by rw [generate_mit_tech_fallback_length])

theorem fetch_hackernews_articles_error (img : Nat → String)
    (rt : Nat → Nat) (date : String) (n : Nat) :
    fetch_hackernews_articles (.error ()) img rt date n =
      generate_hackernews_fallback img rt date n := by
  unfold fetch_hackernews_articles
  exact List.take_of_length_le (by rw [generate_hackernews_fallback_length])

/-- C2 (amended): when every source's HTTP fetch raises, the cache
produced by `fetch_all_articles` still has a non-empty `articles` list
(the three fallback pools contribute 7 articles and the grid takes 6).
The unconditional form of the claim fails: see the counterexample, a run
in which every fetch succeeds but parses zero articles. -/
theorem c2_fallback_articles_nonempty (env : AggEnv) (b : Bool)
    (htc : env.tcFetch = .error ()) (hmt : env.mtFetch = .error ())
    (hhn : env.hnFetch = .error ()) (hms : env.msFetch = .error ())
    (hsh : ∀ l, (env.shuffle l).length = l.length) :
    (fetch_all_articles env b).articles ≠ [] := by
  have harticles : (fetch_all_articles env b).articles.length = 6 := by
    unfold fetch_all_articles
    simp only [htc, hmt, hhn, hms]
    rw [fetch_techcrunch_articles_error, fetch_mit_tech_review_articles_error,
        fetch_hackernews_articles_error]
    have hA : ∀ X : List Article,
        X.length = 7 →
        ((match env.shuffle X with
          | [] => []
          | a :: rest => { a with author_title := "Tech Analyst" } :: rest).take
            6).length = 6 := by
      intro X hX
      have h7 : (env.shuffle X).length = 7 := by rw [hsh, hX]
      cases hL : env.shuffle X with
      | nil => rw [hL] at h7; simp at h7
      | cons a rest =>
        rw [hL] at h7
        simp only [List.length_cons] at h7
        simp [List.length_take]
        omega
    cases b with
    | true =>
      simp only [if_true]
      apply hA
      simp [generate_techcrunch_fallback_length, generate_mit_tech_fallback_length,
            generate_hackernews_fallback_length, fetch_mit_sloan_articles]
    | false =>
      simp only [Bool.false_eq_true, if_false]
      apply hA
      simp [generate_techcrunch_fallback_length, generate_mit_tech_fallback_length,
            generate_hackernews_fallback_length, fetch_mit_sloan_articles]
  intro hz
  rw [hz] at harticles
  simp at harticles

/-- Closed instance of `c2_fallback_articles_nonempty` on a concrete
all-fetches-fail environment. -/
theorem c2_fallback_articles_nonempty_witness :
    (fetch_all_articles
      { tcFetch := .error (), mtFetch := .error (), hnFetch := .error (),
        msFetch := .error (), img := (fun _ => "img"), rt := (fun _ => 5),
        nowDate := "d", nowIso := "ts", enrich := id,
        shuffle := id } true).articles ≠ [] :=
  c2_fallback_articles_nonempty
    { tcFetch := .error (), mtFetch := .error (), hnFetch := .error (),
      msFetch := .error (), img := (fun _ => "img"), rt := (fun _ => 5),
      nowDate := "d", nowIso := "ts", enrich := id, shuffle := id }
    true rfl rfl rfl rfl (fun _ => rfl)

/-- C2 counterexample: a run in which every source's HTTP request
succeeds but the page parses to zero articles produces a cache whose
`articles` list is empty — so it is not true that every refresh yields a
non-empty list. -/
theorem c2_counterexample :
    (fetch_all_articles
      { tcFetch := .ok [], mtFetch := .ok [], hnFetch := .ok [],
        msFetch := .ok [], img := (fun _ => "img"), rt := (fun _ => 5),
        nowDate := "d", nowIso := "ts", enrich := id,
        shuffle := id } true).articles = [] := by
  rfl

/-- C7 (amended): for TechCrunch, MIT Tech Review and Hacker News a fetch
failure substitutes that source's fixed fallback pool — the fetch still
returns (non-empty, correctly source-tagged) articles and no error
reaches the cache consumer.  MIT Sloan is the exception the original
claim misses: its fetch has no fallback pool and returns the empty list
on failure (still without surfacing an error). -/
theorem c7_per_source_fallback (img : Nat → String) (rt : Nat → Nat)
    (date : String) :
    (fetch_techcrunch_articles (.error ()) img rt date 3 =
        generate_techcrunch_fallback img rt date 3 ∧
      (fetch_techcrunch_articles (.error ()) img rt date 3).length = 3 ∧
      ∀ a ∈ fetch_techcrunch_articles (.error ()) img rt date 3,
        a.source = "TechCrunch") ∧
    (fetch_mit_tech_review_articles (.error ()) img rt date 2 =
        generate_mit_tech_fallback img rt date 2 ∧
      (fetch_mit_tech_review_articles (.error ()) img rt date 2).length = 2 ∧
      ∀ a ∈ fetch_mit_tech_review_articles (.error ()) img rt date 2,
        a.source = "MIT Tech Review") ∧
    (fetch_hackernews_articles (.error ()) img rt date 2 =
        generate_hackernews_fallback img rt date 2 ∧
      (fetch_hackernews_articles (.error ()) img rt date 2).length = 2 ∧
      ∀ a ∈ fetch_hackernews_articles (.error ()) img rt date 2,
        a.source = "Hacker News") ∧
    fetch_mit_sloan_articles (.error ()) 6 = [] := by
  refine ⟨⟨fetch_techcrunch_articles_error img rt date 3, ?_, ?_⟩,
          ⟨fetch_mit_tech_review_articles_error img rt date 2, ?_, ?_⟩,
          ⟨fetch_hackernews_articles_error img rt date 2, ?_, ?_⟩, rfl⟩
  · rw [fetch_techcrunch_articles_error, generate_techcrunch_fallback_length]
  · intro a ha
    rw [fetch_techcrunch_articles_error] at ha
    simp only [generate_techcrunch_fallback, List.mem_map] at ha
    obtain ⟨i, -, rfl⟩ := ha
    rfl
  · rw [fetch_mit_tech_review_articles_error, generate_mit_tech_fallback_length]
  · intro a ha
    rw [fetch_mit_tech_review_articles_error] at ha
    simp only [generate_mit_tech_fallback, List.mem_map] at ha
    obtain ⟨i, -, rfl⟩ := ha
    rfl
  · rw [fetch_hackernews_articles_error, generate_hackernews_fallback_length]
  · intro a ha
    rw [fetch_hackernews_articles_error] at ha
    simp only [generate_hackernews_fallback, List.mem_map] at ha
    obtain ⟨i, -, rfl⟩ := ha
    rfl

/-- C7 counterexample: MIT Sloan's fetch, on failure, does not substitute
articles from a fallback pool — it returns no articles at all, refuting
the claim that every source substitutes fallback entries on failure. -/
theorem c7_counterexample : fetch_mit_sloan_articles (.error ()) 6 = [] := by
  rfl

/-- C8: each refresh cycle replaces the cache file's content wholesale in
one write: after `save_cache` the stored cache is exactly the payload
`fetch_all_articles` computed — every field of it — independent of the
cache file's previous contents, with no merge of old and new entries. -/
theorem c8_cache_overwritten_wholesale (env : AggEnv) (b : Bool)
    (prev1 prev2 : Option CacheData) :
    (run_refresh env b prev1).2 = some (fetch_all_articles env b) ∧
    (run_refresh env b prev1).2 = (run_refresh env b prev2).2 ∧
    (run_refresh env b prev1).1 = fetch_all_articles env b ∧
    (∀ d, (run_refresh env b prev1).2 = some d →
      d.timestamp = (fetch_all_articles env b).timestamp ∧
      d.featured = (fetch_all_articles env b).featured ∧
      d.articles = (fetch_all_articles env b).articles ∧
      d.ai_ml_articles = (fetch_all_articles env b).ai_ml_articles ∧
      d.sources_used = (fetch_all_articles env b).sources_used) := by
  refine ⟨rfl, rfl, rfl, ?_⟩
  intro d hd
  simp only [run_refresh, save_cache, Option.some.injEq] at hd
  subst hd
  exact ⟨rfl, rfl, rfl, rfl, rfl⟩

/-- Closed instance of `c8_cache_overwritten_wholesale`: two refreshes
from different previous cache contents store the same payload. -/
theorem c8_cache_overwritten_wholesale_witness :
    (run_refresh
      { tcFetch := .error (), mtFetch := .error (), hnFetch := .error (),
        msFetch := .error (), img := (fun _ => "img"), rt := (fun _ => 5),
        nowDate := "d", nowIso := "ts", enrich := id, shuffle := id }
      true none).2 =
    (run_refresh
      { tcFetch := .error (), mtFetch := .error (), hnFetch := .error (),
        msFetch := .error (), img := (fun _ => "img"), rt := (fun _ => 5),
        nowDate := "d", nowIso := "ts", enrich := id, shuffle := id }
      true (some
        { timestamp := "old", featured := get_default_featured (fun _ => "i") "d",
          articles := [], ai_ml_articles := [], sources_used := [] })).2 :=
  (c8_cache_overwritten_wholesale
    { tcFetch := .error (), mtFetch := .error (), hnFetch := .error (),
      msFetch := .error (), img := (fun _ => "img"), rt := (fun _ => 5),
      nowDate := "d", nowIso := "ts", enrich := id, shuffle := id }
    true none (some
      { timestamp := "old", featured := get_default_featured (fun _ => "i") "d",
        articles := [], ai_ml_articles := [], sources_used := [] })).2.1

/-- C6 (code-bug evidence): a single completed session in which exactly
two pages were viewed (`track_visitor` called twice) is reported with a
bounce rate of 100%, although the claim — and the code's own comment,
"1 if only one page viewed, 0 otherwise" — say such a session is not a
bounce (B = 0 of K = 1, so 0%).  The session row is created with the
schema default `total_pages = 0` and only subsequent views increment it,
so `total_pages` is one less than the number of pages viewed and the
`total_pages <= 1` test also fires for two-page sessions. -/
theorem c6_two_page_session_counted_as_bounce :
    pagesViewed
      (track_session_end
        (track_visitor (track_visitor initAnalytics "s1" "/") "s1" "/a")
        "s1" 30) "s1" = 2 ∧
    bounce_rate_percentage
      (track_session_end
        (track_visitor (track_visitor initAnalytics "s1" "/") "s1" "/a")
        "s1" 30).sessions = 100 := by
  constructor
  · rfl
  · show roundTo2 _ = 100
    norm_num [track_session_end, track_visitor, initAnalytics,
      bounce_rate_percentage, roundTo2, round_eq, List.find?]

end TORQ
